import Mathlib

/-!
# Verification of the VR controller core (`src/resources/VRController.js`)

A shallow embedding of the input-device subsystem of the repository:
device discovery, capability-catalog lookup, controller-adapter
construction, per-tick change detection (`pollForChanges`), haptic
scheduling (`renderVibes` / `applyVibes`), disconnection handling
(`update` / `onGamepadDisconnect`), and the orientation arm model.

JS numbers are modelled as `ℚ` (every constant in the claims is exactly
representable; arithmetic used by the claims is exact).  JS truthiness of
a number is `≠ 0`.  Fallible JS code (a thrown `TypeError` /
`ReferenceError`) is modelled with `Option` / `Except`.  Out-of-range
array reads of numeric arrays are modelled with `List.getD _ _ 0`; the
only place the code reads a possibly-missing axis slot is behind the
truthiness gate `gamepad.axes[i0] && gamepad.axes[i1]`, where JS
`undefined` and the model's `0` are both falsy, so the model and the
source agree on every reachable path.
-/

namespace VRC

/-- Raw button record of a Device Handle (Gamepad API). -/
structure GamepadButton where
  value : ℚ
  touched : Bool
  pressed : Bool
  deriving DecidableEq, Repr

/-- Raw pose of a Device Handle: capability flags plus nullable
orientation / position arrays. -/
structure GamepadPose where
  hasOrientation : Bool
  hasPosition : Bool
  orientation : Option (List ℚ)
  position : Option (List ℚ)
  deriving DecidableEq, Repr

/-- A raw device handle as read from the host polling API. -/
structure Gamepad where
  id : String
  index : Nat
  hand : String
  axes : List ℚ
  buttons : List GamepadButton
  pose : Option GamepadPose
  hasHaptics : Bool
  deriving DecidableEq, Repr

/-! ## Capability catalog (`THREE.VRController.supported`, lines 915-1284) -/

/-- One named axis pair of a schema: name plus the two source indexes. -/
structure AxesMap where
  name : String
  indexes : Nat × Nat
  deriving DecidableEq, Repr

/-- One catalog entry: style, optional axis-pair schema, optional ordered
button-name list, optional primary-button name. -/
structure Schema where
  style : String
  axes : Option (List AxesMap)
  buttons : Option (List String)
  primary : Option String
  deriving DecidableEq, Repr

def daydreamSchema : Schema :=
  { style := "daydream"
    axes := some [⟨"thumbpad", (0, 1)⟩]
    buttons := some ["thumbpad"]
    primary := some "thumbpad" }

def viveSchema : Schema :=
  { style := "vive"
    axes := some [⟨"thumbpad", (0, 1)⟩]
    buttons := some ["thumbpad", "trigger", "grip", "menu"]
    primary := some "trigger" }

def oculusTouchRightSchema : Schema :=
  { style := "oculus-touch-right"
    axes := some [⟨"thumbstick", (0, 1)⟩]
    buttons := some ["thumbstick", "trigger", "grip", "A", "B", "thumbrest"]
    primary := some "trigger" }

def oculusTouchLeftSchema : Schema :=
  { style := "oculus-touch-left"
    axes := some [⟨"thumbstick", (0, 1)⟩]
    buttons := some ["thumbstick", "trigger", "grip", "X", "Y", "thumbrest"]
    primary := some "trigger" }

def microsoftSchema : Schema :=
  { style := "microsoft"
    axes := some [⟨"thumbstick", (0, 1)⟩, ⟨"thumbpad", (2, 3)⟩]
    buttons := some ["thumbstick", "trigger", "grip", "menu", "thumbpad"]
    primary := some "trigger" }

def gearvrControllerSchema : Schema :=
  { style := "gearvr-controller"
    axes := some [⟨"thumbpad", (0, 1)⟩]
    buttons := some ["touchpad", "trigger"]
    primary := some "touchpad" }

def gearvrTouchpadSchema : Schema :=
  { style := "gearvr-touchpad"
    axes := some [⟨"thumbpad", (0, 1)⟩]
    buttons := some ["touchpad"]
    primary := some "touchpad" }

def oculusRemoteSchema : Schema :=
  { style := "oculus-remote"
    axes := none
    buttons := some ["a", "b", "d-up", "d-down", "d-left", "d-right"]
    primary := some "a" }

def xboxSchema : Schema :=
  { style := "xbox"
    axes := some [⟨"thumbstick-left", (0, 1)⟩, ⟨"thumbstick-right", (2, 3)⟩]
    buttons := some ["a", "b", "x", "y", "bumper-left", "bumper-right",
      "trigger-left", "trigger-right", "select", "start",
      "thumbstick-left", "thumbstick-right", "d-up", "d-down", "d-left", "d-right"]
    primary := some "a" }

/-- The catalog in key-insertion order: the nine literal entries of
`THREE.VRController.supported` followed by the three aliases appended by
`addSupportedControllers` (all sharing the xbox schema).
`Object.keys` enumerates string keys in insertion order, which is the
iteration order of `getSupportedById`. -/
def supportedPairs : List (String × Schema) :=
  [ ("Daydream Controller", daydreamSchema),
    ("OpenVR Gamepad", viveSchema),
    ("Oculus Touch (Right)", oculusTouchRightSchema),
    ("Oculus Touch (Left)", oculusTouchLeftSchema),
    ("Spatial Controller (Spatial Interaction Source)", microsoftSchema),
    ("Gear VR Controller", gearvrControllerSchema),
    ("Gear VR Touchpad", gearvrTouchpadSchema),
    ("Oculus Remote", oculusRemoteSchema),
    ("xbox", xboxSchema),
    ("Xbox 360 Controller (XInput STANDARD GAMEPAD)", xboxSchema),
    ("Xbox One Wired Controller (STANDARD GAMEPAD Vendor: 045e Product: 02dd)", xboxSchema),
    ("xinput", xboxSchema) ]

/-- `hay.indexOf(key) >= 0`: does `key` occur as a contiguous substring of
`hay`?  Recursion mirrors scanning candidate start positions left to
right. -/
def containsSub (hay key : List Char) : Bool :=
  match hay with
  | [] => key.isEmpty
  | _ :: t => key.isPrefixOf hay || containsSub t key

/-- The loop body of `getSupportedById` (lines 886-899): walk the keys in
catalog order, return the schema of the first key contained in `id`. -/
def lookupSupported (id : String) : List (String × Schema) → Option Schema
  | [] => none
  | (key, s) :: rest =>
    if containsSub id.data key.data then some s else lookupSupported id rest

/-- `THREE.VRController.getSupportedById` (lines 886-899). -/
def getSupportedById (id : String) : Option Schema :=
  lookupSupported id supportedPairs

/-! ## Controller-adapter state -/

/-- Directional digital-press states derived from thumbstick axes
(`axes[i].dpad`, lines 175-180); `up`/`down` watch the Y index,
`left`/`right` the X index. -/
structure DpadState where
  up : Bool
  down : Bool
  left : Bool
  right : Bool
  deriving DecidableEq, Repr

/-- One tracked named axis pair (entries of the constructor-local `axes`
array, lines 167-199). -/
structure AxisState where
  name : String
  indexes : Nat × Nat
  value : ℚ × ℚ
  isThumbstick : Bool
  dpad : Option DpadState
  deriving DecidableEq, Repr

/-- One tracked named button (entries of `buttons`, lines 211-217). -/
structure ButtonState where
  name : String
  value : ℚ
  isTouched : Bool
  isPressed : Bool
  isPrimary : Bool
  deriving DecidableEq, Repr

/-- One haptic channel: name, current intensity, FIFO queue of
(timestamp, intensity) commands. -/
structure VibeChannel where
  name : String
  intensity : ℚ
  queue : List (ℚ × ℚ)
  deriving DecidableEq, Repr

/-- The adapter's haptic state: the channel list (a reserved unnamed
channel always exists), the aggregate intensity, the previously
commanded value and the time of the last hardware command
(`undefined` before the first command). -/
structure VibeState where
  channels : List VibeChannel
  intensity : ℚ
  prior : ℚ
  lastCommanded : Option ℚ
  deriving DecidableEq, Repr

def vibeInitState : VibeState :=
  { channels := [⟨"", 0, []⟩], intensity := 0, prior := 0, lastCommanded := none }

/-- The controller adapter (fields of a `THREE.VRController` instance
that the verified claims touch; the three.js matrix composition is not
modelled, the orientation / position fields hold the raw adopted
arrays). -/
structure Controller where
  style : String
  name : String
  dof : Nat
  hand : String
  axes : List AxisState
  buttons : List ButtonState
  buttonNamePrimary : String
  hasPosed : Bool
  visible : Bool
  quaternion : List ℚ
  position : List ℚ
  armModelCreated : Bool
  vibes : VibeState
  deriving DecidableEq, Repr

/-! ## Adapter construction (`THREE.VRController`, lines 58-252) -/

/-- `this.axisThreshold = 0.2` (line 99). -/
def axisThreshold : ℚ := mkRat 2 10

/-- `this.axisPressThreshold = 0.6` (line 100). -/
def axisPressThreshold : ℚ := mkRat 6 10

/-- `filterAxis` (lines 101-103): zero a single axis value unless its
magnitude exceeds the dead-zone threshold. -/
def filterAxis (v : ℚ) : ℚ :=
  if |v| > axisThreshold then v else 0

/-- The paired dead-zone filter applied to thumbstick pairs (lines
157-165 at construction, 362-370 in `pollForChanges`): the filtered
values are adopted only when both filter to zero; otherwise the raw pair
is kept. -/
def filterAxisPair (x y : ℚ) : ℚ × ℚ :=
  let fx := filterAxis x
  let fy := filterAxis y
  if fx = 0 ∧ fy = 0 then (fx, fy) else (x, y)

/-- JS `String.prototype.startsWith`. -/
def strStarts (s pre : String) : Bool :=
  pre.data.isPrefixOf s.data

/-- Axis pairs built from a matched schema (lines 147-185). -/
def schemaAxes (gAxes : List ℚ) (maps : List AxesMap) : List AxisState :=
  maps.map fun m =>
    let rawX := gAxes.getD m.indexes.1 0
    let rawY := gAxes.getD m.indexes.2 0
    let isTS := strStarts m.name "thumbstick"
    let v := if isTS then filterAxisPair rawX rawY else (rawX, rawY)
    { name := m.name, indexes := m.indexes, value := v, isThumbstick := isTS,
      dpad := if isTS then some ⟨false, false, false, false⟩ else none }

/-- Generic axis pairs synthesized when no schema (or no axis schema)
matched (lines 187-200): the loop `i < gamepad.axes.length / 2` uses JS
float division, so an odd leftover axis still opens a final pair. -/
def genericAxes (gAxes : List ℚ) : List AxisState :=
  (List.range ((gAxes.length + 1) / 2)).map fun i =>
    { name := "axes_" ++ toString (i + 1), indexes := (2 * i, 2 * i + 1),
      value := (gAxes.getD (2 * i) 0, gAxes.getD (2 * i + 1) 0),
      isThumbstick := false, dpad := none }

/-- Default button records with synthesized names (lines 209-219),
carrying the forEach index. -/
def genericButtonsFrom (i : Nat) : List GamepadButton → List ButtonState
  | [] => []
  | b :: rest =>
    { name := "button_" ++ toString i, value := b.value, isTouched := b.touched,
      isPressed := b.pressed, isPrimary := false } :: genericButtonsFrom (i + 1) rest

def genericButtons (gbs : List GamepadButton) : List ButtonState :=
  genericButtonsFrom 0 gbs

/-- Positional renaming by a schema's button-name list (lines 224-228).
In the source, `buttons[i].name = buttonName` with `buttons[i]`
`undefined` throws a `TypeError`, so a schema with more names than
reported buttons aborts construction: `none`. -/
def applyButtonNames : List String → List ButtonState → Option (List ButtonState)
  | [], bs => some bs
  | _ :: _, [] => none
  | n :: ns, b :: bs =>
    (applyButtonNames ns bs).map fun rest => { b with name := n } :: rest

/-- `buttons.byName[buttonNamePrimary].isPrimary = true` (lines 250-252):
`byName` is built first-to-last so a later duplicate name overrides an
earlier one; the flag lands on the last button carrying the name, and on
no button when the name is absent. -/
def markPrimaryLast (nm : String) : List ButtonState → List ButtonState
  | [] => []
  | b :: rest =>
    if rest.any (fun x => x.name = nm) then b :: markPrimaryLast nm rest
    else if b.name = nm then { b with isPrimary := true } :: rest
    else b :: rest

/-- `this.dof` (line 97): `gamepad.pose ? 3 * (+hasOrientation + +hasPosition) : 0`. -/
def dofOf (pose : Option GamepadPose) : Nat :=
  match pose with
  | none => 0
  | some p => 3 * (p.hasOrientation.toNat + p.hasPosition.toNat)

/-- The `THREE.VRController` constructor (lines 58-252), restricted to the
state the claims are about.  Returns `none` when the constructor throws
(schema button-name list longer than the reported button array). -/
def construct (g : Gamepad) : Option Controller :=
  let supported := getSupportedById g.id
  let axes :=
    match supported with
    | some s =>
      match s.axes with
      | some maps => schemaAxes g.axes maps
      | none => genericAxes g.axes
    | none => genericAxes g.axes
  let buttons0 := genericButtons g.buttons
  let renamed : Option (String × List ButtonState × Option String) :=
    match supported with
    | none => some ("", buttons0, none)
    | some s =>
      match s.buttons with
      | none => some (s.style, buttons0, s.primary)
      | some names =>
        match applyButtonNames names buttons0 with
        | none => none
        | some bs => some (s.style, bs, s.primary)
  match renamed with
  | none => none
  | some (style, bs, declaredPrimary) =>
    let primaryName :=
      declaredPrimary.getD (if g.buttons.length > 1 then "button_1" else "button_0")
    some
      { style := style, name := g.id, dof := dofOf g.pose, hand := g.hand,
        axes := axes, buttons := markPrimaryLast primaryName bs,
        buttonNamePrimary := primaryName, hasPosed := false, visible := false,
        quaternion := [0, 0, 0, 1], position := [0, 0, 0],
        armModelCreated := false, vibes := vibeInitState }

/-! ## Change detection (`pollForChanges`, lines 332-461) -/

/-- The notifications dispatched synchronously on the adapter.  The
`began : Bool` flag encodes the "... began" (`true`) / "... ended"
(`false`) suffix of the event name. -/
inductive Event where
  | handChanged (hand : String)
  | axesChanged (name : String) (x y : ℚ)
  | dpadPress (axisName dir : String) (began : Bool)
  | buttonValueChanged (name : String) (value : ℚ)
  | primaryValueChanged (value : ℚ)
  | buttonTouch (name : String) (began : Bool)
  | primaryTouch (began : Bool)
  | buttonPress (name : String) (began : Bool)
  | primaryPress (began : Bool)
  | disconnected
  deriving DecidableEq, Repr

/-- The truthiness gate `if ( gamepad.axes[ i0 ] && gamepad.axes[ i1 ] )`
(line 356): both raw slots must be JS-truthy (a nonzero number). -/
def axisGate (gAxes : List ℚ) (a : AxisState) : Bool :=
  decide (gAxes.getD a.indexes.1 0 ≠ 0) && decide (gAxes.getD a.indexes.2 0 ≠ 0)

/-- The freshly read value of a tracked pair: raw values at the two
source indexes, run through the paired dead-zone filter when the pair is
a thumbstick (lines 358-370). -/
def freshAxisValue (gAxes : List ℚ) (a : AxisState) : ℚ × ℚ :=
  let rawX := gAxes.getD a.indexes.1 0
  let rawY := gAxes.getD a.indexes.2 0
  if a.isThumbstick then filterAxisPair rawX rawY else (rawX, rawY)

/-- One direction of the d-pad emulation (lines 391-407): compare the
stored digital state against the freshly derived one, flip it and emit
"<axis> <dir> press began|ended" on a transition. -/
def pollDir (axisName dir : String) (old newPressed : Bool) : Bool × List Event :=
  if old ≠ newPressed then (newPressed, [Event.dpadPress axisName dir newPressed])
  else (old, [])

/-- The d-pad emulation for one thumbstick pair, iterating the four
directions in object-insertion order up, down, left, right:
`right`/`down` fire on raw value `> axisPressThreshold`, `left`/`up` on
`< -axisPressThreshold` (lines 389-408). -/
def pollDpad (axisName : String) (vX vY : ℚ) (dp : DpadState) : DpadState × List Event :=
  let pu := pollDir axisName "up" dp.up (decide (vY < -axisPressThreshold))
  let pd := pollDir axisName "down" dp.down (decide (vY > axisPressThreshold))
  let pl := pollDir axisName "left" dp.left (decide (vX < -axisPressThreshold))
  let pr := pollDir axisName "right" dp.right (decide (vX > axisPressThreshold))
  (⟨pu.1, pd.1, pl.1, pr.1⟩, pu.2 ++ pd.2 ++ pl.2 ++ pr.2)

/-- One iteration of the axes loop (lines 352-411): behind the truthiness
gate, adopt the freshly filtered pair on exact component-wise inequality
and emit "<name> axes changed" whose payload has Y negated for a vive
thumbpad (lines 372-386); then re-derive the d-pad states from the raw
values. -/
def pollOneAxis (style : String) (gAxes : List ℚ) (a : AxisState) :
    AxisState × List Event :=
  if axisGate gAxes a then
    let fresh := freshAxisValue gAxes a
    let step1 : AxisState × List Event :=
      if a.value ≠ fresh then
        let delivered :=
          if style = "vive" ∧ a.name = "thumbpad" then (fresh.1, -fresh.2) else fresh
        ({ a with value := fresh }, [Event.axesChanged a.name delivered.1 delivered.2])
      else (a, [])
    if a.isThumbstick then
      match step1.1.dpad with
      | some dp =>
        let pd := pollDpad a.name (gAxes.getD a.indexes.1 0) (gAxes.getD a.indexes.2 0) dp
        ({ step1.1 with dpad := some pd.1 }, step1.2 ++ pd.2)
      | none => step1
    else step1
  else (a, [])

def pollAxes (style : String) (gAxes : List ℚ) : List AxisState → List AxisState × List Event
  | [] => ([], [])
  | a :: rest =>
    ((pollOneAxis style gAxes a).1 :: (pollAxes style gAxes rest).1,
      (pollOneAxis style gAxes a).2 ++ (pollAxes style gAxes rest).2)

/-- One iteration of the buttons loop (lines 415-459): three independent
comparisons (value, touched, pressed) with independent events, each
mirrored on the "primary" channel when the button is primary. -/
def pollOneButton (b : ButtonState) (gb : GamepadButton) : ButtonState × List Event :=
  let pv : ℚ × List Event :=
    if b.value ≠ gb.value then
      (gb.value, [Event.buttonValueChanged b.name gb.value] ++
        (if b.isPrimary then [Event.primaryValueChanged gb.value] else []))
    else (b.value, [])
  let pt : Bool × List Event :=
    if b.isTouched ≠ gb.touched then
      (gb.touched, [Event.buttonTouch b.name gb.touched] ++
        (if b.isPrimary then [Event.primaryTouch gb.touched] else []))
    else (b.isTouched, [])
  let pp : Bool × List Event :=
    if b.isPressed ≠ gb.pressed then
      (gb.pressed, [Event.buttonPress b.name gb.pressed] ++
        (if b.isPrimary then [Event.primaryPress gb.pressed] else []))
    else (b.isPressed, [])
  ({ b with value := pv.1, isTouched := pt.1, isPressed := pp.1 }, pv.2 ++ pt.2 ++ pp.2)

/-- The buttons loop: `buttons.forEach(function(button, i){ ...
gamepad.buttons[i] ... })`.  Reading a raw record past the end of
`gamepad.buttons` dereferences `undefined` and throws, hence `none`. -/
def pollButtons : List ButtonState → List GamepadButton → Option (List ButtonState × List Event)
  | [], _ => some ([], [])
  | _ :: _, [] => none
  | b :: bs, gb :: gbs =>
    (pollButtons bs gbs).map fun out =>
      ((pollOneButton b gb).1 :: out.1, (pollOneButton b gb).2 ++ out.2)

/-- The hand comparison at the top of `pollForChanges` (lines 343-347):
new hand value and the emitted event, if any. -/
def pollHand (c : Controller) (g : Gamepad) : String × List Event :=
  if c.hand ≠ g.hand then (g.hand, [Event.handChanged g.hand]) else (c.hand, [])

/-- `pollForChanges` (lines 332-461): hand comparison, then the axes
loop, then the buttons loop; events are dispatched in that order. -/
def pollForChanges (c : Controller) (g : Gamepad) : Option (Controller × List Event) :=
  (pollButtons c.buttons g.buttons).map fun out =>
    ({ c with
        hand := (pollHand c g).1, axes := (pollAxes c.style g.axes c.axes).1,
        buttons := out.1 },
      (pollHand c g).2 ++ (pollAxes c.style g.axes c.axes).2 ++ out.2)

/-! ## Haptics (`setVibe` / `renderVibes` / `applyVibes`, lines 597-711) -/

/-- `THREE.VRController.VIBE_TIME_MAX = 5 * 1000` (line 597). -/
def vibeTimeMax : ℚ := 5 * 1000

/-- The drain loop of `renderVibes` (lines 670-678): pop every command
whose scheduled time has already elapsed (strict `now > t`), in queue
order, adopting each popped intensity. -/
def drainQueue (now cur : ℚ) : List (ℚ × ℚ) → ℚ × List (ℚ × ℚ)
  | [] => (cur, [])
  | (t, v) :: rest =>
    if now > t then drainQueue now v rest else (cur, (t, v) :: rest)

/-- `renderVibes` (lines 660-693): drain every channel, sum the current
intensities, clamp the sum to [0,1] via `Math.min(1, Math.max(0, Σ))`,
store it as the adapter's aggregate intensity and return it.  (The
`typeof channel.intensity !== 'number'` repair is vacuous here because
intensities are numbers by construction.) -/
def renderVibes (now : ℚ) (vs : VibeState) : VibeState × ℚ :=
  let chans := vs.channels.map fun ch =>
    let (cur, q) := drainQueue now ch.intensity ch.queue
    { ch with intensity := cur, queue := q }
  let sum := min 1 (max 0 (chans.foldl (fun s ch => s + ch.intensity) 0))
  ({ vs with channels := chans, intensity := sum }, sum)

/-- `applyVibes` (lines 694-711): when the device has a haptic actuator,
render, and re-command the hardware when the intensity changed or more
than half of `VIBE_TIME_MAX` elapsed since the last command (the
`now - undefined` comparison before any command is NaN, hence false). -/
def applyVibes (c : Controller) (g : Gamepad) (now : ℚ) : Controller :=
  if g.hasHaptics then
    let vsr := renderVibes now c.vibes
    let recommand : Bool :=
      decide (vsr.2 ≠ vsr.1.prior) ||
        (match vsr.1.lastCommanded with
          | some t => decide (now - t > vibeTimeMax / 2)
          | none => false)
    if recommand then
      { c with vibes := { vsr.1 with lastCommanded := some now, prior := vsr.2 } }
    else { c with vibes := vsr.1 }
  else c

/-! ## Pose update and disconnection (`update`, lines 474-585;
`onGamepadDisconnect`, lines 772-804; registry, line 732) -/

/-- The bail-out test of `update` (line 498): the raw pose is treated as
absent when the pose object is null/undefined or both orientation and
position are null. -/
def poseAbsent : Option GamepadPose → Bool
  | none => true
  | some p => p.orientation.isNone && p.position.isNone

/-- `THREE.VRController.controllers`, the process-wide registry keyed by
slot index. -/
def Registry := Nat → Option Controller

/-- `scope.controllers[ index ] = undefined` in `onGamepadDisconnect`
(line 793). -/
def clearSlot (reg : Registry) (idx : Nat) : Registry :=
  fun j => if j = idx then none else reg j

/-- The pose-adoption tail of `update` (lines 504-569): mark the adapter
as posed and visible on its first valid pose, adopt orientation data
when present, then either adopt position data (6-DOF path) or take the
arm-model path (position absent: the arm-model instance is created when
missing, then updated — its numerics are verified separately). -/
def adoptPose (c : Controller) (p : GamepadPose) : Controller :=
  let c3 := if c.hasPosed then c else { c with hasPosed := true, visible := true }
  let c4 :=
    match p.orientation with
    | some o => { c3 with quaternion := o }
    | none => c3
  match p.position with
  | some pos => { c4 with position := pos }
  | none => { c4 with armModelCreated := true }

/-- `THREE.VRController.prototype.update` (lines 474-585) together with
the registry mutation of `onGamepadDisconnect`: poll for changes, apply
haptics, then either bail out on an absent pose (dispatching exactly one
"disconnected" event and clearing the registry slot when the adapter had
posed) or adopt the raw pose.  The three.js matrix composition is
outside the adapter state tracked here. -/
def updateController (reg : Registry) (c : Controller) (g : Gamepad) (now : ℚ) :
    Option (Registry × Controller × List Event) :=
  match pollForChanges c g with
  | none => none
  | some (c1, evs) =>
    let c2 := applyVibes c1 g now
    if poseAbsent g.pose then
      if c2.hasPosed then
        some (clearSlot reg g.index, c2, evs ++ [Event.disconnected])
      else some (reg, c2, evs)
    else
      match g.pose with
      | none => none
      | some p => some (reg, adoptPose c2 p, evs)

/-! ## The `getAxes` getter (lines 263-273)

Its body tests the identifier `nameOrIndex`, but its parameter is
declared as `index`; the code runs in non-strict mode, where *reading*
an undeclared identifier throws a `ReferenceError`.  The scope chain of
the getter's body is modelled explicitly from the source: its own
parameter list, the constructor scope's declarations, and the
script-level globals. -/

inductive JsError where
  | referenceError
  deriving DecidableEq, Repr

/-- Identifiers declared in each scope enclosing the body of `getAxes`,
innermost first: the getter's parameter (line 263); the constructor's
parameter and hoisted `var`/`const` declarations (lines 58-204 — note
`var i, i0, i1, axisX, axisY` are hoisted out of the generic-axes loop);
the script-level globals (including `d`, leaked to the global object by
the unscoped `for ( d in axisDPad )` on line 391). -/
def getAxesScopeChain : List (List String) :=
  [ ["index", "arguments"],
    ["gamepad", "supported", "hand", "axes", "buttons", "buttonNamePrimary",
     "scope", "vibeChannel", "axesNames", "i", "i0", "i1", "axisX", "axisY",
     "this", "arguments"],
    ["THREE", "OrientationArmModel", "window", "navigator", "performance",
     "console", "Object", "Math", "CustomEvent", "d"] ]

def declaredForGetAxes (nm : String) : Bool :=
  getAxesScopeChain.any fun sc => sc.contains nm

/-- `getAxes` (lines 263-273).  The argument is nothing (`undefined`), a
string name, or a numeric index; the result on the non-throwing paths
would be the whole axes collection or a single (possibly missing) axis
record.  Every path first evaluates `nameOrIndex === undefined`. -/
def getAxes (c : Controller) (arg : Option (String ⊕ Nat)) :
    Except JsError (List AxisState ⊕ Option AxisState) :=
  if declaredForGetAxes "nameOrIndex" then
    match arg with
    | none => Except.ok (Sum.inl c.axes)
    | some (Sum.inl nm) =>
      -- axes.byName[nm]; byName is written first-to-last so a duplicate
      -- name resolves to the last axis carrying it
      Except.ok (Sum.inr (c.axes.reverse.find? fun a => a.name = nm))
    | some (Sum.inr i) => Except.ok (Sum.inr (c.axes.get? i))
  else Except.error JsError.referenceError

/-! ## Arm model (`OrientationArmModel`, lines 1305-1549)

The arm model is a pure state machine over three.js quaternions,
vectors and IEEE numbers.  The three.js math kernel (quaternion
multiplication, slerp, Euler conversion, `angleTo`, …) is an external
library, not part of this repository; it is abstracted as a bundle of
*pure functions* `ArmOps`, and the model's own code (every line of
`OrientationArmModel.prototype.update` and its helpers) is transcribed
over that bundle, including the in-place-mutation aliasing of
`.inverse()` and `.multiply()`. -/

structure ArmOps (S Q V : Type) where
  ofRat : ℚ → S
  sAdd : S → S → S
  sSub : S → S → S
  sMul : S → S → S
  sDiv : S → S → S
  sMin : S → S → S
  sMax : S → S → S
  sPow : S → S → S
  sLt : S → S → Bool
  radToDeg : S → S
  qIdentity : Q
  qMul : Q → Q → Q
  qInv : Q → Q
  qSlerp : Q → Q → S → Q
  eulerYXZ : Q → S × S × S
  qFromEulerYXZ : S → S → S → Q
  vZero : V
  vMk : S → S → S → V
  vAdd : V → V → V
  vScale : V → S → V
  vApplyQ : V → Q → V
  vAngle : V → V → S

variable {S Q V : Type}

/-- `HEAD_ELBOW_OFFSET` (line 1356). -/
def headElbowOffset (ops : ArmOps S Q V) : V :=
  ops.vMk (ops.ofRat (mkRat 155 1000)) (ops.ofRat (mkRat (-465) 1000)) (ops.ofRat (mkRat (-15) 100))

/-- `ELBOW_WRIST_OFFSET` (line 1357). -/
def elbowWristOffset (ops : ArmOps S Q V) : V :=
  ops.vMk (ops.ofRat 0) (ops.ofRat 0) (ops.ofRat (mkRat (-25) 100))

/-- `WRIST_CONTROLLER_OFFSET` (line 1358). -/
def wristControllerOffset (ops : ArmOps S Q V) : V :=
  ops.vMk (ops.ofRat 0) (ops.ofRat 0) (ops.ofRat (mkRat 5 100))

/-- `ARM_EXTENSION_OFFSET` (line 1359). -/
def armExtensionOffset (ops : ArmOps S Q V) : V :=
  ops.vMk (ops.ofRat (mkRat (-8) 100)) (ops.ofRat (mkRat 14 100)) (ops.ofRat (mkRat 8 100))

/-- `ELBOW_BEND_RATIO` = 0.4 (line 1360). -/
def elbowBendFrac (ops : ArmOps S Q V) : S := ops.ofRat (mkRat 4 10)

/-- `EXTENSION_RATIO_WEIGHT` = 0.4 (line 1361). -/
def extWeightFrac (ops : ArmOps S Q V) : S := ops.ofRat (mkRat 4 10)

/-- `MIN_ANGULAR_SPEED` = 0.61 (line 1362). -/
def minAngularSpeed (ops : ArmOps S Q V) : S := ops.ofRat (mkRat 61 100)

/-- The arm model's entire mutable state (constructor, lines 1305-1350). -/
structure ArmState (S Q V : Type) where
  isLeftHanded : Bool
  controllerQ : Q
  lastControllerQ : Q
  headQ : Q
  headPos : V
  elbowPos : V
  wristPos : V
  time : Option S
  lastTime : Option S
  rootQ : Q
  poseOrientation : Q
  posePosition : V

/-- `new OrientationArmModel()`: identity quaternions, zero vectors,
null timestamps. -/
def armModelNew (ops : ArmOps S Q V) : ArmState S Q V :=
  { isLeftHanded := false, controllerQ := ops.qIdentity,
    lastControllerQ := ops.qIdentity, headQ := ops.qIdentity,
    headPos := ops.vZero, elbowPos := ops.vZero, wristPos := ops.vZero,
    time := none, lastTime := none, rootQ := ops.qIdentity,
    poseOrientation := ops.qIdentity, posePosition := ops.vZero }

/-- `setControllerOrientation` (lines 1369-1374): shift current to
previous, copy the new value. -/
def setControllerOrientation (q : Q) (m : ArmState S Q V) : ArmState S Q V :=
  { m with lastControllerQ := m.controllerQ, controllerQ := q }

def setHeadOrientation (q : Q) (m : ArmState S Q V) : ArmState S Q V :=
  { m with headQ := q }

def setHeadPosition (p : V) (m : ArmState S Q V) : ArmState S Q V :=
  { m with headPos := p }

/-- `quatAngle_` (lines 1539-1548): angle between the forward vectors
implied by two quaternions. -/
def quatAngle (ops : ArmOps S Q V) (q1 q2 : Q) : S :=
  let vec1 := ops.vApplyQ (ops.vMk (ops.ofRat 0) (ops.ofRat 0) (ops.ofRat (-1))) q1
  let vec2 := ops.vApplyQ (ops.vMk (ops.ofRat 0) (ops.ofRat 0) (ops.ofRat (-1))) q2
  ops.vAngle vec1 vec2

/-- `getHeadYawOrientation_` (lines 1518-1529): YXZ Euler decomposition
with pitch and roll zeroed. -/
def headYawOrientation (ops : ArmOps S Q V) (headQ : Q) : Q :=
  let e := ops.eulerYXZ headQ
  ops.qFromEulerYXZ (ops.ofRat 0) e.2.1 (ops.ofRat 0)

/-- `clamp_` (lines 1534-1538): `Math.min(Math.max(value, lo), hi)`. -/
def clampS (ops : ArmOps S Q V) (value lo hi : S) : S :=
  ops.sMin (ops.sMax value lo) hi

/-- `OrientationArmModel.prototype.update` (lines 1395-1484), transcribed
line by line.  `this.time - this.lastTime` coerces an initial null
`lastTime` to 0.  `wristQ.inverse()` (line 1448) mutates `wristQ` in
place, so the later `applyQuaternion( wristQ )` (line 1463) sees the
*inverted* quaternion — the aliasing is reproduced here. -/
def armUpdate (ops : ArmOps S Q V) (now : S) (m : ArmState S Q V) : ArmState S Q V :=
  let headYawQ := headYawOrientation ops m.headQ
  let timeDelta := ops.sDiv (ops.sSub now (m.lastTime.getD (ops.ofRat 0))) (ops.ofRat 1000)
  let angleDelta := quatAngle ops m.lastControllerQ m.controllerQ
  let speed := ops.sDiv angleDelta timeDelta
  let rootQ :=
    if ops.sLt (minAngularSpeed ops) speed then
      ops.qSlerp m.rootQ headYawQ (ops.sDiv angleDelta (ops.ofRat 10))
    else headYawQ
  let eu := ops.eulerYXZ m.controllerQ
  let controllerXDeg := ops.radToDeg eu.1
  let extFrac := clampS ops
      (ops.sDiv (ops.sSub controllerXDeg (ops.ofRat 11)) (ops.sSub (ops.ofRat 50) (ops.ofRat 11)))
      (ops.ofRat 0) (ops.ofRat 1)
  let controllerCameraQ := ops.qMul (ops.qInv rootQ) m.controllerQ
  let elbowPos := ops.vAdd (ops.vAdd m.headPos (headElbowOffset ops))
      (ops.vScale (armExtensionOffset ops) extFrac)
  let totalAngle := quatAngle ops controllerCameraQ ops.qIdentity
  let totalAngleDeg := ops.radToDeg totalAngle
  let lerpSuppression := ops.sSub (ops.ofRat 1)
      (ops.sPow (ops.sDiv totalAngleDeg (ops.ofRat 180)) (ops.ofRat 4))
  let lerpValue := ops.sMul lerpSuppression
      (ops.sAdd (elbowBendFrac ops)
        (ops.sMul (ops.sMul (ops.sSub (ops.ofRat 1) (elbowBendFrac ops)) extFrac)
          (extWeightFrac ops)))
  let wristQ := ops.qInv (ops.qSlerp ops.qIdentity controllerCameraQ lerpValue)
  let elbowQ := ops.qMul controllerCameraQ wristQ
  let wristPos := ops.vAdd
      (ops.vApplyQ
        (ops.vAdd (ops.vApplyQ (wristControllerOffset ops) wristQ) (elbowWristOffset ops))
        elbowQ)
      elbowPos
  let position := ops.vApplyQ
      (ops.vAdd wristPos (ops.vScale (armExtensionOffset ops) extFrac)) rootQ
  { m with
    rootQ := rootQ, elbowPos := elbowPos, wristPos := wristPos,
    poseOrientation := m.controllerQ, posePosition := position,
    time := some now, lastTime := some now }

/-- One tick's worth of caller-supplied inputs, as fed by the 3-DOF path
of `VRController.prototype.update` (lines 557-562). -/
structure ArmInput (S Q V : Type) where
  headPos : V
  headQ : Q
  controllerQ : Q
  now : S

/-- One tick: `setHeadPosition`, `setHeadOrientation`,
`setControllerOrientation`, `update()` — in source order. -/
def armStep (ops : ArmOps S Q V) (inp : ArmInput S Q V) (m : ArmState S Q V) :
    ArmState S Q V :=
  armUpdate ops inp.now
    (setControllerOrientation inp.controllerQ
      (setHeadOrientation inp.headQ (setHeadPosition inp.headPos m)))

/-- Run a sequence of ticks, recording the output pose (`getPose()`)
after every update. -/
def armRun (ops : ArmOps S Q V) (m : ArmState S Q V) :
    List (ArmInput S Q V) → List (Q × V)
  | [] => []
  | inp :: rest =>
    let m1 := armStep ops inp m
    (m1.poseOrientation, m1.posePosition) :: armRun ops m1 rest

/-! ## Concrete devices used as test vectors -/

/-- An inert raw button. -/
def zeroButton : GamepadButton := ⟨0, false, false⟩

/-- A placeholder adapter used only as the default of `Option.getD`; the
accompanying equations prove the relevant `construct` calls return
`some`, so the placeholder is never the value actually used. -/
def cFallback : Controller :=
  { style := "", name := "", dof := 0, hand := "", axes := [], buttons := [],
    buttonNamePrimary := "", hasPosed := false, visible := false,
    quaternion := [], position := [], armModelCreated := false,
    vibes := vibeInitState }

/-- A placeholder axis record (default of `List.getD`). -/
def axDummy : AxisState :=
  { name := "", indexes := (0, 0), value := (0, 0), isThumbstick := false, dpad := none }

/-- A Vive wand at connection time: thumbpad resting near centre. -/
def gViveInit : Gamepad :=
  { id := "OpenVR Gamepad", index := 0, hand := "right",
    axes := [mkRat 1 100, mkRat 1 100],
    buttons := [zeroButton, zeroButton, zeroButton, zeroButton],
    pose := none, hasHaptics := false }

/-- The same Vive wand one tick later with the thumbpad at (0.3, 0.7). -/
def gVivePolled : Gamepad := { gViveInit with axes := [mkRat 3 10, mkRat 7 10] }

/-- An Oculus Touch (Right) at connection time: thumbstick near centre
(inside the dead zone). -/
def gOcInit : Gamepad :=
  { id := "Oculus Touch (Right)", index := 0, hand := "right",
    axes := [mkRat 1 100, mkRat 1 100],
    buttons := [zeroButton, zeroButton, zeroButton, zeroButton, zeroButton, zeroButton],
    pose := none, hasHaptics := false }

/-- The same Oculus Touch one tick later with the thumbstick at (0.3, 0.7). -/
def gOcPolled : Gamepad := { gOcInit with axes := [mkRat 3 10, mkRat 7 10] }

/-- The Oculus Touch one tick later with the thumbstick at (0.1, 0.5):
X inside the dead zone, Y outside it. -/
def gOcDeadZone : Gamepad := { gOcInit with axes := [mkRat 1 10, mkRat 1 2] }

/-- An unrecognized device with no buttons at all. -/
def gNoButtons : Gamepad :=
  { id := "mystery gamepad", index := 0, hand := "", axes := [], buttons := [],
    pose := none, hasHaptics := false }

/-! ## C1 — paired dead-zone filtering -/

/-- C1 (counterexample): with raw input (0.1, 0.5) and threshold 0.2 the
adapter does NOT deliver (0, 0): because 0.5 exceeds the threshold, the
pair is kept raw and the notification delivers (0.1, 0.5).  The claimed
"both delivered outputs are zero" is false on the code. -/
theorem dead_zone_delivers_raw_counterexample :
    ((construct gOcInit).bind fun c => (pollForChanges c gOcDeadZone).map Prod.snd)
        = some [Event.axesChanged "thumbstick" (mkRat 1 10) (mkRat 1 2)]
  ∧ ¬ ((construct gOcInit).bind fun c => (pollForChanges c gOcDeadZone).map Prod.snd)
        = some [Event.axesChanged "thumbstick" 0 0] := by
  constructor
  · decide
  · decide

/-- C1 (amended): the dead-zone filter never zeroes one axis of a pair
while leaving the other raw — the filtered pair is adopted only when
both components filter to zero, otherwise the raw pair is kept
unchanged.  In particular raw (0.1, 0.5) passes through as (0.1, 0.5)
(not (0, 0.5) and not (0, 0)). -/
theorem filterAxisPair_all_or_nothing (x y : ℚ) :
    (filterAxisPair x y = (x, y) ∨ filterAxisPair x y = (0, 0))
  ∧ filterAxisPair (mkRat 1 10) (mkRat 1 2) = (mkRat 1 10, mkRat 1 2) := by
  constructor
  · by_cases h : filterAxis x = 0 ∧ filterAxis y = 0
    · right
      simp [filterAxisPair, h, h.1, h.2]
    · left
      simp [filterAxisPair, h]
  · decide

/-! ## C5 — Vive thumbpad Y inversion -/

/-- C5: on a `vive`-styled adapter the "thumbpad axes changed"
notification delivers the Y component negated — raw (0.3, 0.7) is
delivered as (0.3, −0.7) — while the identical raw input on an
`oculus-touch-right`-styled adapter is delivered unmodified as
(0.3, 0.7) (followed by the d-pad "down press began" derived from
0.7 > 0.6). -/
theorem vive_thumbpad_y_inversion :
    ((construct gViveInit).bind fun c => (pollForChanges c gVivePolled).map Prod.snd)
        = some [Event.axesChanged "thumbpad" (mkRat 3 10) (-(mkRat 7 10))]
  ∧ ((construct gOcInit).bind fun c => (pollForChanges c gOcPolled).map Prod.snd)
        = some [Event.axesChanged "thumbstick" (mkRat 3 10) (mkRat 7 10),
            Event.dpadPress "thumbstick" "down" true] := by
  constructor
  · decide
  · decide

/-! ## C10 — `getAxes` always throws -/

/-- C10: every invocation of the `getAxes` getter — with no argument,
a string name, or a numeric index — throws a `ReferenceError`, because
the body tests the identifier `nameOrIndex` while the declared parameter
is `index` and no enclosing scope declares `nameOrIndex`; named axis
pairs are therefore never retrievable through this getter. -/
theorem getAxes_always_reference_error (c : Controller) (arg : Option (String ⊕ Nat)) :
    getAxes c arg = Except.error JsError.referenceError := by
  have h : declaredForGetAxes "nameOrIndex" = false := by decide
  unfold getAxes
  simp [h]

/-! ## C9 — arm-model determinism -/

/-- C9: the arm model is deterministic — two independently constructed
instances fed identical sequences of head position/orientation,
controller orientation and update times produce identical output poses
after every update, for any (pure) interpretation of the underlying math
kernel.  All state lives in `ArmState`; there is no hidden state beyond
the previous tick's values. -/
theorem armModel_deterministic (S Q V : Type) (ops : ArmOps S Q V)
    (m1 m2 : ArmState S Q V) (h1 : m1 = armModelNew ops) (h2 : m2 = armModelNew ops)
    (inputs : List (ArmInput S Q V)) :
    armRun ops m1 inputs = armRun ops m2 inputs := by
  subst h1
  subst h2
  rfl

/-- A concrete (degenerate but pure) interpretation of the math kernel,
used to instantiate the determinism theorem. -/
def ratArmOps : ArmOps ℚ ℚ ℚ :=
  { ofRat := id, sAdd := fun a _ => a, sSub := fun a _ => a, sMul := fun a _ => a,
    sDiv := fun a _ => a, sMin := fun a _ => a, sMax := fun a _ => a,
    sPow := fun a _ => a, sLt := fun _ _ => false, radToDeg := id,
    qIdentity := 0, qMul := fun a _ => a, qInv := id, qSlerp := fun a _ _ => a,
    eulerYXZ := fun q => (q, q, q), qFromEulerYXZ := fun _ y _ => y,
    vZero := 0, vMk := fun x _ _ => x, vAdd := fun a _ => a,
    vScale := fun v _ => v, vApplyQ := fun v _ => v, vAngle := fun a _ => a }

/-- Witness for C9 at a concrete instantiation. -/
theorem armModel_deterministic_witness :
    armRun ratArmOps (armModelNew ratArmOps) [⟨0, 0, 0, 0⟩, ⟨1, 1, 1, 1⟩]
      = armRun ratArmOps (armModelNew ratArmOps) [⟨0, 0, 0, 0⟩, ⟨1, 1, 1, 1⟩] :=
  armModel_deterministic ℚ ℚ ℚ ratArmOps _ _ rfl rfl _

/-! ## C4 — primary-button resolution -/

/-- C4 (counterexample): an adapter constructed from an unrecognized
device that reports no buttons has zero buttons with `isPrimary = true` —
the fallback name `button_0` resolves to no record — so "exactly one
button carries isPrimary = true" fails. -/
theorem primary_button_zero_counterexample :
    ((construct gNoButtons).map fun c => c.buttons.countP fun b => b.isPrimary) = some 0 := by
  decide

/-! ## C6 — substring catalog lookup -/

theorem lookupSupported_eq_find (id : String) (l : List (String × Schema)) :
    lookupSupported id l = (l.find? fun p => containsSub id.data p.1.data).map Prod.snd := by
  induction l with
  | nil => rfl
  | cons p rest ih =>
    obtain ⟨key, s⟩ := p
    by_cases h : containsSub id.data key.data = true
    · simp [lookupSupported, h, List.find?_cons_of_pos]
    · simp only [Bool.not_eq_true] at h
      simp [lookupSupported, h, List.find?_cons_of_neg, ih]

theorem containsSub_iff_infix (key hay : List Char) :
    containsSub hay key = true ↔ key <:+: hay := by
  induction hay with
  | nil =>
    simp only [containsSub, List.isEmpty_iff]
    constructor
    · rintro rfl
      exact List.infix_refl _
    · intro h
      exact List.eq_nil_of_infix_nil h
  | cons c t ih =>
    simp only [containsSub, Bool.or_eq_true, List.isPrefixOf_iff_prefix, ih,
      List.infix_cons_iff]

/-- Names synthesized for generic axis pairs. -/
theorem genericAxes_names (gAxes : List ℚ) :
    (genericAxes gAxes).map (fun a => a.name)
      = (List.range ((gAxes.length + 1) / 2)).map fun i => "axes_" ++ toString (i + 1) := by
  simp only [genericAxes, List.map_map]
  rfl

theorem genericButtonsFrom_names (gbs : List GamepadButton) : ∀ i : Nat,
    (genericButtonsFrom i gbs).map (fun b => b.name)
      = (List.range gbs.length).map fun j => "button_" ++ toString (i + j) := by
  induction gbs with
  | nil => intro i; rfl
  | cons b rest ih =>
    intro i
    have h1 : (List.range (rest.length + 1)).map (fun j => "button_" ++ toString (i + j))
        = ("button_" ++ toString (i + 0))
          :: ((List.range rest.length).map fun j => "button_" ++ toString (i + (j + 1))) := by
      rw [List.range_succ_eq_map]
      simp [List.map_map, Function.comp_def]
    calc (genericButtonsFrom i (b :: rest)).map (fun b => b.name)
        = ("button_" ++ toString i)
            :: (genericButtonsFrom (i + 1) rest).map (fun b => b.name) := rfl
      _ = ("button_" ++ toString i)
            :: (List.range rest.length).map (fun j => "button_" ++ toString (i + 1 + j)) := by
          rw [ih]
      _ = (List.range (b :: rest).length).map fun j => "button_" ++ toString (i + j) := by
          rw [List.length_cons, h1, Nat.add_zero]
          congr 1
          apply List.map_congr_left
          intro j _
          congr 2
          omega

theorem markPrimaryLast_names (nm : String) (bs : List ButtonState) :
    (markPrimaryLast nm bs).map (fun b => b.name) = bs.map fun b => b.name := by
  induction bs with
  | nil => rfl
  | cons b rest ih =>
    simp only [markPrimaryLast]
    split_ifs with h1 h2 <;> simp [ih]

/-- Inversion of `construct` when no catalog key matched. -/
theorem construct_no_schema (g : Gamepad) (hs : getSupportedById g.id = none) :
    construct g = some
      { style := "", name := g.id, dof := dofOf g.pose, hand := g.hand,
        axes := genericAxes g.axes,
        buttons := markPrimaryLast (if g.buttons.length > 1 then "button_1" else "button_0")
          (genericButtons g.buttons),
        buttonNamePrimary := (if g.buttons.length > 1 then "button_1" else "button_0"),
        hasPosed := false, visible := false, quaternion := [0, 0, 0, 1],
        position := [0, 0, 0], armModelCreated := false, vibes := vibeInitState } := by
  simp [construct, hs]

/-- C6: catalog lookup walks the schema keys in catalog-definition order
and returns the schema of the first key that occurs as a substring of
the raw identifier; it returns none exactly when no key is a substring,
and in that case the constructed adapter falls back to the synthesized
generic names `axes_N` (one pair per two raw slots) and `button_N`. -/
theorem catalog_substring_lookup (id : String) :
    getSupportedById id
        = (supportedPairs.find? fun p => containsSub id.data p.1.data).map Prod.snd
  ∧ (getSupportedById id = none ↔ ∀ p ∈ supportedPairs, ¬ p.1.data <:+: id.data)
  ∧ (∀ g : Gamepad, g.id = id → getSupportedById id = none →
      ∃ c, construct g = some c
        ∧ c.axes.map (fun a => a.name)
            = (List.range ((g.axes.length + 1) / 2)).map (fun i => "axes_" ++ toString (i + 1))
        ∧ c.buttons.map (fun b => b.name)
            = (List.range g.buttons.length).map fun i => "button_" ++ toString i) := by
  refine ⟨lookupSupported_eq_find id supportedPairs, ?_, ?_⟩
  · rw [getSupportedById, lookupSupported_eq_find, Option.map_eq_none', List.find?_eq_none]
    constructor
    · intro h p hp
      have := h p hp
      rw [← containsSub_iff_infix]
      simp_all
    · intro h p hp
      have := h p hp
      rw [← containsSub_iff_infix] at this
      simp_all
  · intro g hgid hnone
    rw [← hgid] at hnone
    refine ⟨_, construct_no_schema g hnone, ?_, ?_⟩
    · exact genericAxes_names g.axes
    · rw [markPrimaryLast_names, genericButtons, genericButtonsFrom_names]
      apply List.map_congr_left
      intro j _
      rw [Nat.zero_add]

/-- An unrecognized device: three raw axis slots, one raw button. -/
def gUnmatched : Gamepad :=
  { id := "custom pad 9000", index := 2, hand := "",
    axes := [mkRat 1 2, 0, mkRat 1 4], buttons := [zeroButton],
    pose := none, hasHaptics := false }

/-- Witness for C6: the fallback clause at a concrete unmatched device. -/
theorem catalog_substring_lookup_witness :
    ∃ c, construct gUnmatched = some c
      ∧ c.axes.map (fun a => a.name)
          = (List.range ((gUnmatched.axes.length + 1) / 2)).map
              (fun i => "axes_" ++ toString (i + 1))
      ∧ c.buttons.map (fun b => b.name)
          = (List.range gUnmatched.buttons.length).map fun i => "button_" ++ toString i :=
  (catalog_substring_lookup "custom pad 9000").2.2 gUnmatched rfl (by decide)

/-! ## C7 — clamped aggregate haptic intensity -/

theorem foldl_add_intensity (l : List VibeChannel) (init : ℚ) :
    l.foldl (fun s ch => s + ch.intensity) init
      = init + (l.map fun ch => ch.intensity).sum := by
  induction l generalizing init with
  | nil => simp
  | cons ch rest ih =>
    simp [List.foldl_cons, ih, add_assoc]

/-- A haptic state with two channels holding intensities 0.6 and 0.7. -/
def twoChannelVibes : VibeState :=
  { channels := [⟨"a", mkRat 6 10, []⟩, ⟨"b", mkRat 7 10, []⟩],
    intensity := 0, prior := 0, lastCommanded := none }

/-- C7: on every `renderVibes` call the stored and returned aggregate
intensity equals the sum of all channels' current (post-drain)
intensities clamped to [0, 1]; in particular two channels at 0.6 and 0.7
yield aggregate 1, not 1.3. -/
theorem renderVibes_clamped_aggregate (now : ℚ) (vs : VibeState) :
    (renderVibes now vs).1.intensity = (renderVibes now vs).2
  ∧ (renderVibes now vs).2
      = min 1 (max 0 (((renderVibes now vs).1.channels.map fun ch => ch.intensity).sum))
  ∧ (renderVibes 0 twoChannelVibes).2 = 1 := by
  refine ⟨rfl, ?_, ?_⟩
  · simp only [renderVibes, foldl_add_intensity, zero_add]
  · norm_num [renderVibes, drainQueue, twoChannelVibes]

/-! ## C8 — degrees of freedom fixed at construction -/

theorem construct_dof (g : Gamepad) (c : Controller) (h : construct g = some c) :
    c.dof = dofOf g.pose := by
  simp only [construct] at h
  rcases hsup : getSupportedById g.id with _ | s
  · rw [hsup] at h
    dsimp only at h
    obtain rfl := Option.some.inj h
    rfl
  · rw [hsup] at h
    dsimp only at h
    rcases hb : s.buttons with _ | names
    · rw [hb] at h
      dsimp only at h
      obtain rfl := Option.some.inj h
      rfl
    · rw [hb] at h
      dsimp only at h
      rcases ha : applyButtonNames names (genericButtons g.buttons) with _ | bs
      · rw [ha] at h
        exact absurd h (by simp)
      · rw [ha] at h
        dsimp only at h
        obtain rfl := Option.some.inj h
        rfl

theorem pollForChanges_invariant_fields (c : Controller) (g : Gamepad)
    (out : Controller × List Event) (h : pollForChanges c g = some out) :
    out.1.style = c.style ∧ out.1.dof = c.dof ∧ out.1.hasPosed = c.hasPosed
  ∧ out.1.quaternion = c.quaternion ∧ out.1.position = c.position
  ∧ out.1.armModelCreated = c.armModelCreated ∧ out.1.vibes = c.vibes := by
  unfold pollForChanges at h
  rcases Option.map_eq_some'.mp h with ⟨y, _, rfl⟩
  exact ⟨rfl, rfl, rfl, rfl, rfl, rfl, rfl⟩

theorem applyVibes_shape (c : Controller) (g : Gamepad) (now : ℚ) :
    ∃ vs, applyVibes c g now = { c with vibes := vs } := by
  unfold applyVibes
  dsimp only
  split_ifs with h1 h2
  · exact ⟨_, rfl⟩
  · exact ⟨_, rfl⟩
  · exact ⟨c.vibes, rfl⟩

theorem adoptPose_dof (c : Controller) (p : GamepadPose) : (adoptPose c p).dof = c.dof := by
  obtain ⟨hO, hP, orient, pos⟩ := p
  rcases orient with _ | o <;> rcases pos with _ | ps <;>
    simp only [adoptPose] <;> split_ifs <;> rfl

/-- C8: the degrees-of-freedom count is computed at construction from the
pose capability flags (0 with no pose, else 3 per true flag) and no
later `update` call changes it, whatever capabilities the raw pose
reports on that tick. -/
theorem dof_fixed_at_construction :
    (∀ g c, construct g = some c →
      c.dof = match g.pose with
        | none => 0
        | some p => 3 * (p.hasOrientation.toNat + p.hasPosition.toNat))
  ∧ (∀ (reg : Registry) (c : Controller) (g : Gamepad) (now : ℚ) out,
      updateController reg c g now = some out → out.2.1.dof = c.dof) := by
  constructor
  · intro g c h
    exact construct_dof g c h
  · intro reg c g now out h
    unfold updateController at h
    rcases hp : pollForChanges c g with _ | c1evs
    · rw [hp] at h
      exact absurd h (by simp)
    · rw [hp] at h
      obtain ⟨c1, evs⟩ := c1evs
      dsimp only at h
      have hdof1 : c1.dof = c.dof :=
        (pollForChanges_invariant_fields c g (c1, evs) hp).2.1
      obtain ⟨vs, hvs⟩ := applyVibes_shape c1 g now
      split_ifs at h with habs hposed
      · obtain rfl := Option.some.inj h
        dsimp only
        rw [hvs]
        exact hdof1
      · obtain rfl := Option.some.inj h
        dsimp only
        rw [hvs]
        exact hdof1
      · rcases hgp : g.pose with _ | p
        · rw [hgp] at h
          exact absurd h (by simp)
        · rw [hgp] at h
          dsimp only at h
          obtain rfl := Option.some.inj h
          dsimp only
          rw [adoptPose_dof, hvs]
          exact hdof1

/-- An unrecognized 3-DOF device (orientation capability only). -/
def gThreeDof : Gamepad :=
  { id := "plain pad", index := 0, hand := "", axes := [],
    buttons := [zeroButton],
    pose := some ⟨true, false, some [0, 0, 0, 1], none⟩, hasHaptics := false }

def cThreeDof : Controller := (construct gThreeDof).getD cFallback

/-- The same device on a later tick whose raw pose suddenly reports both
capability flags and full data. -/
def gSixFlags : Gamepad :=
  { gThreeDof with pose := some ⟨true, true, some [0, 0, 0, 1], some [1, 2, 3]⟩ }

def regEmpty : Registry := fun _ => none

def outSixFlags : Registry × Controller × List Event :=
  (updateController regEmpty cThreeDof gSixFlags 0).getD (regEmpty, cFallback, [])

/-- Witness for C8: a 3-DOF adapter keeps DOF = 3 through an update whose
raw pose reports 6-DOF capabilities. -/
theorem dof_fixed_witness :
    (cThreeDof.dof = match gThreeDof.pose with
      | none => 0
      | some p => 3 * (p.hasOrientation.toNat + p.hasPosition.toNat))
  ∧ outSixFlags.2.1.dof = cThreeDof.dof :=
  ⟨dof_fixed_at_construction.1 gThreeDof cThreeDof (by decide),
    dof_fixed_at_construction.2 regEmpty cThreeDof gSixFlags 0 outSixFlags rfl⟩

/-! ## C3 — disconnection round trip -/

theorem pollButtons_isSome (bs : List ButtonState) :
    ∀ gbs : List GamepadButton, bs.length ≤ gbs.length →
      ∃ out, pollButtons bs gbs = some out := by
  induction bs with
  | nil => exact fun gbs _ => ⟨([], []), rfl⟩
  | cons b rest ih =>
    intro gbs hlen
    cases gbs with
    | nil => simp at hlen
    | cons gb grest =>
      obtain ⟨out, hout⟩ := ih grest (by simpa using hlen)
      exact ⟨((pollOneButton b gb).1 :: out.1, (pollOneButton b gb).2 ++ out.2),
        by simp [pollButtons, hout]⟩

theorem pollDir_mem (an d : String) (o n : Bool) (e : Event)
    (he : e ∈ (pollDir an d o n).2) : e = Event.dpadPress an d n := by
  unfold pollDir at he
  split_ifs at he <;> simp_all

theorem pollDpad_mem_shape (an : String) (vX vY : ℚ) (dp : DpadState) (e : Event)
    (he : e ∈ (pollDpad an vX vY dp).2) : ∃ dir began, e = Event.dpadPress an dir began := by
  unfold pollDpad at he
  dsimp only at he
  rcases List.mem_append.mp he with h | h
  · rcases List.mem_append.mp h with h1 | h1
    · rcases List.mem_append.mp h1 with h2 | h2
      · exact ⟨_, _, pollDir_mem _ _ _ _ _ h2⟩
      · exact ⟨_, _, pollDir_mem _ _ _ _ _ h2⟩
    · exact ⟨_, _, pollDir_mem _ _ _ _ _ h1⟩
  · exact ⟨_, _, pollDir_mem _ _ _ _ _ h⟩

theorem pollDpad_no_disc (an : String) (vX vY : ℚ) (dp : DpadState) :
    Event.disconnected ∉ (pollDpad an vX vY dp).2 := by
  intro he
  obtain ⟨dir, began, hE⟩ := pollDpad_mem_shape an vX vY dp _ he
  exact Event.noConfusion hE

theorem pollOneAxis_no_disc (style : String) (gAxes : List ℚ) (a : AxisState) :
    Event.disconnected ∉ (pollOneAxis style gAxes a).2 := by
  intro he
  unfold pollOneAxis at he
  dsimp only at he
  revert he
  cases hdp : a.dpad with
  | none => intro he; split_ifs at he <;> simp_all
  | some dp => intro he; split_ifs at he <;> simp_all [pollDpad_no_disc]

theorem pollAxes_no_disc (style : String) (gAxes : List ℚ) (axs : List AxisState) :
    Event.disconnected ∉ (pollAxes style gAxes axs).2 := by
  induction axs with
  | nil => simp [pollAxes]
  | cons a rest ih =>
    intro he
    unfold pollAxes at he
    dsimp only at he
    rcases List.mem_append.mp he with h | h
    · exact pollOneAxis_no_disc style gAxes a h
    · exact ih h

theorem pollOneButton_no_disc (b : ButtonState) (gb : GamepadButton) :
    Event.disconnected ∉ (pollOneButton b gb).2 := by
  intro he
  unfold pollOneButton at he
  dsimp only at he
  split_ifs at he <;> simp_all

theorem pollButtons_no_disc (bs : List ButtonState) :
    ∀ (gbs : List GamepadButton) out, pollButtons bs gbs = some out →
      Event.disconnected ∉ out.2 := by
  induction bs with
  | nil =>
    intro gbs out h
    obtain rfl := Option.some.inj h
    simp
  | cons b rest ih =>
    intro gbs out h
    cases gbs with
    | nil => exact absurd h (by simp [pollButtons])
    | cons gb grest =>
      unfold pollButtons at h
      rcases Option.map_eq_some'.mp h with ⟨y, hy, rfl⟩
      intro he
      rcases List.mem_append.mp he with h1 | h1
      · exact pollOneButton_no_disc b gb h1
      · exact ih grest y hy h1

theorem pollHand_no_disc (c : Controller) (g : Gamepad) :
    Event.disconnected ∉ (pollHand c g).2 := by
  intro he
  unfold pollHand at he
  split_ifs at he <;> simp_all

theorem pollForChanges_no_disc (c : Controller) (g : Gamepad)
    (out : Controller × List Event) (h : pollForChanges c g = some out) :
    Event.disconnected ∉ out.2 := by
  unfold pollForChanges at h
  rcases Option.map_eq_some'.mp h with ⟨y, hy, rfl⟩
  intro he
  dsimp only at he
  rcases List.mem_append.mp he with h1 | h1
  · rcases List.mem_append.mp h1 with h2 | h2
    · exact pollHand_no_disc c g h2
    · exact pollAxes_no_disc c.style g.axes c.axes h2
  · exact pollButtons_no_disc c.buttons g.buttons y hy h1

/-- C3: when an adapter that has posed at least once reads an entirely
null raw pose on an update, that update dispatches exactly one
"disconnected" notification, clears the adapter's registry slot, and
performs no pose processing that tick (pose-adoption state is
untouched). -/
theorem disconnect_roundtrip (reg : Registry) (c : Controller) (g : Gamepad) (now : ℚ)
    (hposed : c.hasPosed = true) (habsent : poseAbsent g.pose = true)
    (hlen : c.buttons.length ≤ g.buttons.length) :
    ∃ c2 evs, updateController reg c g now
        = some (clearSlot reg g.index, c2, evs ++ [Event.disconnected])
      ∧ (evs ++ [Event.disconnected]).count Event.disconnected = 1
      ∧ clearSlot reg g.index g.index = none
      ∧ c2.hasPosed = c.hasPosed ∧ c2.quaternion = c.quaternion
      ∧ c2.position = c.position ∧ c2.armModelCreated = c.armModelCreated := by
  obtain ⟨bout, hbout⟩ := pollButtons_isSome c.buttons g.buttons hlen
  have hpoll : pollForChanges c g
      = some ({ c with
            hand := (pollHand c g).1,
            axes := (pollAxes c.style g.axes c.axes).1, buttons := bout.1 },
          (pollHand c g).2 ++ (pollAxes c.style g.axes c.axes).2 ++ bout.2) := by
    unfold pollForChanges
    rw [hbout]
    rfl
  obtain ⟨vs, hvs⟩ := applyVibes_shape
    ({ c with
        hand := (pollHand c g).1,
        axes := (pollAxes c.style g.axes c.axes).1, buttons := bout.1 }) g now
  have hposed2 : (applyVibes
      ({ c with
          hand := (pollHand c g).1,
          axes := (pollAxes c.style g.axes c.axes).1, buttons := bout.1 }) g now).hasPosed
      = true := by
    rw [hvs]
    exact hposed
  refine ⟨applyVibes
      ({ c with
          hand := (pollHand c g).1,
          axes := (pollAxes c.style g.axes c.axes).1, buttons := bout.1 }) g now,
    (pollHand c g).2 ++ (pollAxes c.style g.axes c.axes).2 ++ bout.2,
    ?_, ?_, ?_, ?_, ?_, ?_, ?_⟩
  · unfold updateController
    rw [hpoll]
    dsimp only
    rw [if_pos habsent, if_pos hposed2]
  · rw [List.count_append]
    have hnd := pollForChanges_no_disc c g _ hpoll
    dsimp only at hnd
    rw [List.count_eq_zero.mpr hnd]
    rfl
  · simp [clearSlot]
  · rw [hvs]
  · rw [hvs]
  · rw [hvs]
  · rw [hvs]

/-- A minimal adapter that has already posed. -/
def cPosed : Controller := { cFallback with hasPosed := true }

/-- A device handle whose pose arrays have gone entirely null. -/
def gGone : Gamepad :=
  { id := "plain pad", index := 1, hand := "", axes := [], buttons := [],
    pose := some ⟨true, false, none, none⟩, hasHaptics := false }

/-- Witness for C3 at a concrete adapter and device. -/
theorem disconnect_roundtrip_witness :
    ∃ c2 evs, updateController regEmpty cPosed gGone 0
        = some (clearSlot regEmpty gGone.index, c2, evs ++ [Event.disconnected])
      ∧ (evs ++ [Event.disconnected]).count Event.disconnected = 1
      ∧ clearSlot regEmpty gGone.index gGone.index = none
      ∧ c2.hasPosed = cPosed.hasPosed ∧ c2.quaternion = cPosed.quaternion
      ∧ c2.position = cPosed.position ∧ c2.armModelCreated = cPosed.armModelCreated :=
  disconnect_roundtrip regEmpty cPosed gGone 0 rfl (by decide) (by decide)

/-! ## C2 — change detection fires exactly on changes -/

theorem pollDir_fst (an d : String) (o n : Bool) : (pollDir an d o n).1 = n := by
  unfold pollDir
  split_ifs with h
  · rfl
  · exact not_not.mp h

theorem pollDir_idem (an d : String) (n : Bool) : pollDir an d n n = (n, []) := by
  simp [pollDir]

theorem pollDpad_idem (an : String) (vX vY : ℚ) (dp : DpadState) :
    pollDpad an vX vY (pollDpad an vX vY dp).1 = ((pollDpad an vX vY dp).1, []) := by
  simp [pollDpad, pollDir_fst, pollDir_idem]

theorem pollOneAxis_idem (style : String) (gAxes : List ℚ) (a : AxisState) :
    pollOneAxis style gAxes (pollOneAxis style gAxes a).1
      = ((pollOneAxis style gAxes a).1, []) := by
  obtain ⟨nm, idx, val, its, dpd⟩ := a
  by_cases hg : axisGate gAxes ⟨nm, idx, val, its, dpd⟩ = true
  · by_cases hne : val = freshAxisValue gAxes ⟨nm, idx, val, its, dpd⟩ <;>
      cases its <;> rcases dpd with _ | dp <;>
      simp_all [pollOneAxis, axisGate, freshAxisValue, pollDpad_idem]
  · have h0 : pollOneAxis style gAxes ⟨nm, idx, val, its, dpd⟩
        = (⟨nm, idx, val, its, dpd⟩, []) := by
      unfold pollOneAxis
      rw [if_neg hg]
    rw [h0]
    dsimp only
    exact h0

theorem pollAxes_idem (style : String) (gAxes : List ℚ) (axs : List AxisState) :
    pollAxes style gAxes (pollAxes style gAxes axs).1
      = ((pollAxes style gAxes axs).1, []) := by
  induction axs with
  | nil => rfl
  | cons a rest ih => simp [pollAxes, pollOneAxis_idem, ih]

theorem pollOneButton_fst (b : ButtonState) (gb : GamepadButton) :
    (pollOneButton b gb).1
      = { b with value := gb.value, isTouched := gb.touched, isPressed := gb.pressed } := by
  unfold pollOneButton
  dsimp only
  split_ifs <;> simp_all

theorem pollOneButton_idem (b : ButtonState) (gb : GamepadButton) :
    pollOneButton (pollOneButton b gb).1 gb = ((pollOneButton b gb).1, []) := by
  rw [pollOneButton_fst]
  simp [pollOneButton]

theorem pollButtons_idem (bs : List ButtonState) :
    ∀ (gbs : List GamepadButton) out, pollButtons bs gbs = some out →
      pollButtons out.1 gbs = some (out.1, []) := by
  induction bs with
  | nil =>
    intro gbs out h
    obtain rfl := Option.some.inj h
    rfl
  | cons b rest ih =>
    intro gbs out h
    cases gbs with
    | nil => exact absurd h (by simp [pollButtons])
    | cons gb grest =>
      unfold pollButtons at h
      rcases Option.map_eq_some'.mp h with ⟨y, hy, rfl⟩
      have h2 := ih grest y hy
      simp [pollButtons, h2, pollOneButton_idem]

theorem pollHand_fst (c : Controller) (g : Gamepad) : (pollHand c g).1 = g.hand := by
  unfold pollHand
  split_ifs with h
  · rfl
  · exact not_not.mp h

theorem pollHand_stable (c1 : Controller) (g : Gamepad) (hh : c1.hand = g.hand) :
    pollHand c1 g = (c1.hand, []) := by
  unfold pollHand
  rw [hh]
  simp

theorem pollForChanges_noop (c : Controller) (g : Gamepad)
    (out : Controller × List Event) (h : pollForChanges c g = some out) :
    pollForChanges out.1 g = some (out.1, []) := by
  unfold pollForChanges at h ⊢
  rcases Option.map_eq_some'.mp h with ⟨y, hy, rfl⟩
  dsimp only
  rw [pollButtons_idem c.buttons g.buttons y hy]
  have hh : pollHand
      ({ c with
          hand := (pollHand c g).1, axes := (pollAxes c.style g.axes c.axes).1,
          buttons := y.1 } : Controller) g
      = ((pollHand c g).1, []) :=
    pollHand_stable _ g (pollHand_fst c g)
  rw [Option.map_some']
  rw [show (pollAxes
      ({ c with
          hand := (pollHand c g).1, axes := (pollAxes c.style g.axes c.axes).1,
          buttons := y.1 } : Controller).style g.axes
      (pollAxes c.style g.axes c.axes).1)
      = ((pollAxes c.style g.axes c.axes).1, []) from pollAxes_idem c.style g.axes c.axes]
  rw [hh]
  rfl

theorem pollOneAxis_event_iff (style : String) (gAxes : List ℚ) (a : AxisState) :
    (∃ x y, Event.axesChanged a.name x y ∈ (pollOneAxis style gAxes a).2)
      ↔ (axisGate gAxes a = true ∧ freshAxisValue gAxes a ≠ a.value) := by
  constructor
  · rintro ⟨x, y, hmem⟩
    unfold pollOneAxis at hmem
    dsimp only at hmem
    by_cases hg : axisGate gAxes a = true
    · refine ⟨hg, ?_⟩
      rw [if_pos hg] at hmem
      by_cases hne : a.value = freshAxisValue gAxes a
      · rw [if_neg (not_not_intro hne)] at hmem
        exfalso
        by_cases hts : a.isThumbstick = true
        · rw [if_pos hts] at hmem
          revert hmem
          cases hdp : a.dpad <;> dsimp only <;> intro hmem
          · simp at hmem
          · rw [List.nil_append] at hmem
            obtain ⟨dir, began, hE⟩ := pollDpad_mem_shape _ _ _ _ _ hmem
            exact Event.noConfusion hE
        · rw [if_neg hts] at hmem
          simp at hmem
      · exact fun hEq => hne hEq.symm
    · rw [if_neg hg] at hmem
      simp at hmem
  · rintro ⟨hg, hne⟩
    unfold pollOneAxis
    dsimp only
    rw [if_pos hg, if_pos (show a.value ≠ freshAxisValue gAxes a from fun hEq => hne hEq.symm)]
    set d : ℚ × ℚ :=
      if style = "vive" ∧ a.name = "thumbpad"
        then ((freshAxisValue gAxes a).1, -(freshAxisValue gAxes a).2)
        else freshAxisValue gAxes a with hd
    by_cases hts : a.isThumbstick = true
    · rw [if_pos hts]
      cases hdp : a.dpad <;> dsimp only <;>
        exact ⟨d.1, d.2, by simp⟩
    · rw [if_neg hts]
      exact ⟨d.1, d.2, by simp⟩

theorem pollOneButton_events_iff (b : ButtonState) (gb : GamepadButton) :
    ((∃ v, Event.buttonValueChanged b.name v ∈ (pollOneButton b gb).2) ↔ b.value ≠ gb.value)
  ∧ ((∃ t, Event.buttonTouch b.name t ∈ (pollOneButton b gb).2) ↔ b.isTouched ≠ gb.touched)
  ∧ ((∃ p, Event.buttonPress b.name p ∈ (pollOneButton b gb).2) ↔ b.isPressed ≠ gb.pressed) := by
  unfold pollOneButton
  dsimp only
  by_cases h1 : b.value = gb.value <;> by_cases h2 : b.isTouched = gb.touched <;>
    by_cases h3 : b.isPressed = gb.pressed <;> by_cases hp : b.isPrimary = true <;>
    simp [h1, h2, h3, hp]

/-- C2 (amended): an axes-pair notification fires exactly when both raw
source values are nonzero (the JS truthiness gate
`gamepad.axes[i0] && gamepad.axes[i1]`) AND the freshly filtered pair
differs from the last-seen value by exact component-wise inequality;
each of a button's three notifications fires exactly when the respective
component differs by exact inequality; and a second poll with identical
raw input emits zero notifications. -/
theorem poll_change_detection :
    (∀ c g out, pollForChanges c g = some out → pollForChanges out.1 g = some (out.1, []))
  ∧ (∀ style gAxes a,
      (∃ x y, Event.axesChanged a.name x y ∈ (pollOneAxis style gAxes a).2)
        ↔ (axisGate gAxes a = true ∧ freshAxisValue gAxes a ≠ a.value))
  ∧ (∀ b gb,
      ((∃ v, Event.buttonValueChanged b.name v ∈ (pollOneButton b gb).2) ↔ b.value ≠ gb.value)
      ∧ ((∃ t, Event.buttonTouch b.name t ∈ (pollOneButton b gb).2) ↔ b.isTouched ≠ gb.touched)
      ∧ ((∃ p, Event.buttonPress b.name p ∈ (pollOneButton b gb).2) ↔ b.isPressed ≠ gb.pressed)) :=
  ⟨pollForChanges_noop, pollOneAxis_event_iff, pollOneButton_events_iff⟩

/-- An Oculus Touch (Right) whose thumbstick rests at (0.5, 0.5). -/
def gGateInit : Gamepad :=
  { id := "Oculus Touch (Right)", index := 0, hand := "right",
    axes := [mkRat 1 2, mkRat 1 2],
    buttons := [zeroButton, zeroButton, zeroButton, zeroButton, zeroButton, zeroButton],
    pose := none, hasHaptics := false }

def cGate : Controller := (construct gGateInit).getD cFallback

/-- The same device one tick later with the thumbstick at (0, 0.3): the
X slot reads exactly 0. -/
def gGatePolled : Gamepad := { gGateInit with axes := [0, mkRat 3 10] }

/-- C2 (counterexample): with last-seen value (0.5, 0.5) and raw input
(0, 0.3), the freshly filtered value (0, 0.3) differs from the stored
value, yet the poll emits no notification and leaves the stored value
untouched — the truthiness gate skips the comparison because one raw
axis is exactly 0.  The claimed "notification iff the filtered value
differs" is false on the code. -/
theorem poll_gate_counterexample :
    construct gGateInit = some cGate
  ∧ pollForChanges cGate gGatePolled = some (cGate, [])
  ∧ freshAxisValue gGatePolled.axes (cGate.axes.getD 0 axDummy)
      ≠ (cGate.axes.getD 0 axDummy).value := by
  refine ⟨by decide, by decide, by decide⟩

/-- The gate device one tick later with the thumbstick at (0.3, 0.5). -/
def gSecondPoll : Gamepad := { gGateInit with axes := [mkRat 3 10, mkRat 1 2] }

def cAfterPoll : Controller := ((pollForChanges cGate gSecondPoll).getD (cFallback, [])).1

/-- Witness for C2: after a poll that did emit a change notification,
polling again with identical raw input emits zero notifications. -/
theorem poll_change_detection_witness :
    pollForChanges cAfterPoll gSecondPoll = some (cAfterPoll, []) :=
  poll_change_detection.1 cGate gSecondPoll
    ((pollForChanges cGate gSecondPoll).getD (cFallback, [])) (by decide)

/-! ## C4 — amended primary-button invariant -/

theorem genericButtonsFrom_not_primary (gbs : List GamepadButton) :
    ∀ i, ∀ b ∈ genericButtonsFrom i gbs, b.isPrimary = false := by
  induction gbs with
  | nil =>
    intro i b hb
    simp [genericButtonsFrom] at hb
  | cons gb rest ih =>
    intro i b hb
    rcases List.mem_cons.mp hb with rfl | hb2
    · rfl
    · exact ih (i + 1) b hb2

theorem applyButtonNames_not_primary (ns : List String) :
    ∀ (bs bs1 : List ButtonState), applyButtonNames ns bs = some bs1 →
      (∀ b ∈ bs, b.isPrimary = false) → ∀ b ∈ bs1, b.isPrimary = false := by
  induction ns with
  | nil =>
    intro bs bs1 h hall
    obtain rfl := Option.some.inj h
    exact hall
  | cons n ns ih =>
    intro bs bs1 h hall
    cases bs with
    | nil => exact absurd h (by simp [applyButtonNames])
    | cons b rest =>
      unfold applyButtonNames at h
      rcases Option.map_eq_some'.mp h with ⟨tail, htail, rfl⟩
      intro x hx
      rcases List.mem_cons.mp hx with rfl | hx2
      · exact hall b (List.mem_cons_self _ _)
      · exact ih rest tail htail (fun y hy => hall y (List.mem_cons_of_mem _ hy)) x hx2

theorem markPrimaryLast_count (nm : String) (bs : List ButtonState)
    (hall : ∀ b ∈ bs, b.isPrimary = false) :
    (markPrimaryLast nm bs).countP (fun b => b.isPrimary)
      = if bs.any (fun b => b.name = nm) then 1 else 0 := by
  induction bs with
  | nil => rfl
  | cons b rest ih =>
    have hb : b.isPrimary = false := hall b (List.mem_cons_self _ _)
    have hrest : ∀ x ∈ rest, x.isPrimary = false :=
      fun x hx => hall x (List.mem_cons_of_mem _ hx)
    have hzero : rest.countP (fun x => x.isPrimary) = 0 :=
      List.countP_eq_zero.mpr (by simpa using hrest)
    unfold markPrimaryLast
    by_cases h1 : rest.any (fun x => x.name = nm) = true
    · rw [if_pos h1, List.countP_cons, ih hrest]
      simp [List.any_cons, h1, hb]
    · have h1f : rest.any (fun x => x.name = nm) = false := by
        simpa using h1
      rw [if_neg h1]
      by_cases h2 : b.name = nm
      · rw [if_pos h2, List.countP_cons, hzero]
        simp [List.any_cons, h2]
      · rw [if_neg h2, List.countP_cons, hzero]
        simp [List.any_cons, h2, hb, h1f]

theorem markPrimaryLast_any (nm x : String) (bs : List ButtonState) :
    (markPrimaryLast nm bs).any (fun b => b.name = x)
      = bs.any (fun b => b.name = x) := by
  induction bs with
  | nil => rfl
  | cons b rest ih =>
    unfold markPrimaryLast
    split_ifs with h1 h2 <;> simp [List.any_cons, ih]

theorem construct_buttons_shape (g : Gamepad) (c : Controller) (h : construct g = some c) :
    ∃ bs : List ButtonState,
      (∀ b ∈ bs, b.isPrimary = false)
      ∧ c.buttons = markPrimaryLast c.buttonNamePrimary bs
      ∧ c.buttonNamePrimary
          = (match getSupportedById g.id with
              | some s => s.primary
              | none => none).getD
              (if g.buttons.length > 1 then "button_1" else "button_0") := by
  simp only [construct] at h
  rcases hsup : getSupportedById g.id with _ | s
  · rw [hsup] at h
    dsimp only at h
    obtain rfl := Option.some.inj h
    exact ⟨genericButtons g.buttons, genericButtonsFrom_not_primary _ 0, rfl, by simp [hsup]⟩
  · rw [hsup] at h
    dsimp only at h
    rcases hb : s.buttons with _ | names
    · rw [hb] at h
      dsimp only at h
      obtain rfl := Option.some.inj h
      exact ⟨genericButtons g.buttons, genericButtonsFrom_not_primary _ 0, rfl, by simp [hsup]⟩
    · rw [hb] at h
      dsimp only at h
      rcases ha : applyButtonNames names (genericButtons g.buttons) with _ | bs
      · rw [ha] at h
        exact absurd h (by simp)
      · rw [ha] at h
        dsimp only at h
        obtain rfl := Option.some.inj h
        exact ⟨bs,
          applyButtonNames_not_primary names (genericButtons g.buttons) bs ha
            (genericButtonsFrom_not_primary _ 0),
          rfl, by simp [hsup]⟩

/-- C4 (amended): after construction, at most one button carries
`isPrimary = true` — exactly one when the resolved primary name actually
names a reported button, and zero otherwise (e.g. a device reporting no
buttons).  The name resolves to the schema-declared primary when a
schema matched and declares one, else to `button_1` when the device
reports more than one button, else `button_0`. -/
theorem primary_button_resolution (g : Gamepad) (c : Controller)
    (h : construct g = some c) :
    c.buttons.countP (fun b => b.isPrimary)
        = (if c.buttons.any (fun b => b.name = c.buttonNamePrimary) then 1 else 0)
  ∧ (∀ s, getSupportedById g.id = some s → ∀ p, s.primary = some p →
      c.buttonNamePrimary = p)
  ∧ (getSupportedById g.id = none →
      c.buttonNamePrimary = (if g.buttons.length > 1 then "button_1" else "button_0")) := by
  obtain ⟨bs, hall, hbt, hpn⟩ := construct_buttons_shape g c h
  refine ⟨?_, ?_, ?_⟩
  · rw [hbt, markPrimaryLast_any, markPrimaryLast_count _ _ hall]
  · intro s hs p hp
    rw [hpn]
    simp [hs, hp]
  · intro hn
    rw [hpn]
    simp [hn]

/-- An unrecognized device reporting two buttons. -/
def gTwoButtons : Gamepad :=
  { id := "plain pad two", index := 0, hand := "", axes := [],
    buttons := [zeroButton, zeroButton], pose := none, hasHaptics := false }

def cTwoButtons : Controller := (construct gTwoButtons).getD cFallback

/-- Witness for C4 (amended) at a concrete two-button unmatched device:
the count identity holds and the fallback name is `button_1`. -/
theorem primary_button_resolution_witness :
    cTwoButtons.buttons.countP (fun b => b.isPrimary)
        = (if cTwoButtons.buttons.any (fun b => b.name = cTwoButtons.buttonNamePrimary)
            then 1 else 0)
  ∧ cTwoButtons.buttonNamePrimary
      = (if gTwoButtons.buttons.length > 1 then "button_1" else "button_0") := by
  have h : construct gTwoButtons = some cTwoButtons := by decide
  exact ⟨(primary_button_resolution gTwoButtons cTwoButtons h).1,
    (primary_button_resolution gTwoButtons cTwoButtons h).2.2 (by decide)⟩

end VRC
